import Mathlib

/-!
# Verification of the pvc dialog widgets

A shallow embedding of `src/pvc/widget/vnc.py` and `src/pvc/widget/cluster.py`.

Each widget method is modelled as a pure function from its inputs (the remote
object state, the user interaction results, and oracles for the external
environment: the random stream, port reachability, subprocess success) to the
list of observable effects it performs, in order: dialog boxes shown, remote
calls submitted (`Reconfigure`, `Disconnect`, `Reconnect`), task gauges
displayed, processes spawned, and temporary-file operations.

Python dynamic values that flow through the widgets (extra-config lookups that
may be `None`, a string, an int or a bool) are modelled by `PyVal`, with
Python's truthiness and `str()` conversions made explicit.
-/

namespace Pvc

/-- A `vim.OptionValue` key/value pair of a VM extra-configuration list. -/
structure OptionValue where
  key : String
  value : String
deriving DecidableEq, Repr

/-- A Python dynamic value as it occurs in the VNC widget: `None`, a string,
a non-negative integer, or a boolean. -/
inductive PyVal where
  | vnone : PyVal
  | vstr (s : String) : PyVal
  | vint (n : Nat) : PyVal
  | vbool (b : Bool) : PyVal
deriving DecidableEq, Repr

/-- Python `str()` on a `PyVal` (`str(None) = "None"`, `str(True) = "True"`). -/
def PyVal.toStr : PyVal → String
  | .vnone => "None"
  | .vstr s => s
  | .vint n => toString n
  | .vbool true => "True"
  | .vbool false => "False"

/-- Python truthiness of a `PyVal` (`None` and `""` and `0` and `False` are falsy). -/
def PyVal.truthy : PyVal → Bool
  | .vnone => false
  | .vstr s => s ≠ ""
  | .vint n => n ≠ 0
  | .vbool b => b

/-- Python `int()` applied to a `PyVal`: succeeds on an int or a decimal
string, raises otherwise (modelled as `none`; `int()` also tolerates
surrounding whitespace and a sign, which the stored port strings never
carry). -/
def PyVal.toInt? : PyVal → Option Nat
  | .vint n => some n
  | .vstr s =>
    if s.data ≠ [] ∧ s.data.all (fun c => c.isDigit) then
      some (s.data.foldl (fun n c => 10 * n + (c.toNat - 48)) 0)
    else none
  | _ => none

/-- `VncWidget._get_extra_config_options` builds `{o.key: o.value for o in
obj.config.extraConfig}`; a later duplicate key overrides an earlier one.
`dict.get(key)` then yields `None` for a missing key.  `dictGet` is that
composite: the value of the last entry carrying `k`, as a `PyVal`. -/
def dictGet (ec : List OptionValue) (k : String) : PyVal :=
  match ec.reverse.find? (fun o => o.key == k) with
  | some o => .vstr o.value
  | none => .vnone

/-- `dict.get(key, default)` variant used by `VncWidget.settings`. -/
def dictGetD (ec : List OptionValue) (k : String) (d : String) : String :=
  match ec.reverse.find? (fun o => o.key == k) with
  | some o => o.value
  | none => d

/-- Python `str.lower()` (the values compared here are ASCII): lower-case
every character of the string. -/
def pyLower (s : String) : String :=
  String.mk (s.data.map Char.toLower)

/-- Termination code returned by the dialog toolkit. -/
inductive DialogCode where
  | ok : DialogCode
  | cancel : DialogCode
  | esc : DialogCode
deriving DecidableEq, Repr

/-! ## VNC widget (`src/pvc/widget/vnc.py`) -/

/-- Observable effect of a `VncWidget` method, in program order. -/
inductive VncEvent where
  | infobox (text : String) : VncEvent
  | msgbox (text : String) : VncEvent
  | formShown (initial : List (String × String)) : VncEvent
  | reconfigure (spec : List OptionValue) : VncEvent
  | gauge (text : String) : VncEvent
  | mkstemp : VncEvent
  | spawnVncpasswd : VncEvent
  | writePasswdFile : VncEvent
  | spawnViewer (hostIp : String) (port : String) : VncEvent
  | sleepGrace : VncEvent
  | unlinkPasswdFile : VncEvent
  | pyError (msg : String) : VncEvent
deriving DecidableEq, Repr

/-- `VncWidget._get_available_port`, loop body over the remaining iteration
indices: at index `i` probe port `5900 + rand i` (embedding
`5900 + random.randrange(1, 99)`, where `rand i` is the `i`-th draw of the
random stream, a value in `[1, 98]`); return the first probed port the host is
not accepting connections on (`_port_is_opened` is the oracle `portOpen`). -/
def getAvailablePortAux (rand : Nat → Nat) (portOpen : Nat → Bool) : List Nat → Option Nat
  | [] => none
  | i :: rest =>
    let randomPort := 5900 + rand i
    if ¬ portOpen randomPort then some randomPort
    else getAvailablePortAux rand portOpen rest

/-- `VncWidget._get_available_port(attempts)`: iterate the probe loop over
`range(attempts)`.  (The `Searching for available port ...` infobox it shows
is display-only and tracked by the caller's trace.) -/
def getAvailablePort (rand : Nat → Nat) (portOpen : Nat → Bool) (attempts : Nat) : Option Nat :=
  getAvailablePortAux rand portOpen (List.range attempts)

/-- The ports probed by `_get_available_port(attempts)`, in probe order. -/
def probedPorts (rand : Nat → Nat) (attempts : Nat) : List Nat :=
  (List.range attempts).map (fun i => 5900 + rand i)

/-- `string.ascii_letters + string.digits`, the password alphabet of
`VncWidget._get_random_password`. -/
def passwordChars : List Char :=
  "abcdefghijklmnopqrstuvwxyzABCDEFGHIJKLMNOPQRSTUVWXYZ0123456789".toList

/-- `VncWidget._get_random_password(length)`: one `random.choice` draw per
character; `choice i` is the `i`-th draw, an index into the alphabet. -/
def getRandomPassword (choice : Nat → Nat) (length : Nat := 8) : String :=
  String.mk ((List.range length).map
    (fun i => passwordChars.getD (choice i % passwordChars.length) 'a'))

/-- `VncWidget._configure_vnc_options(enabled, port, password)`: submit a
`Reconfigure` whose `extraConfig` delta holds exactly the three VNC keys with
`str()`-converted values, then display the task gauge. -/
def configureVncOptions (enabled port password : PyVal) : List VncEvent :=
  [.reconfigure
    [⟨"RemoteDisplay.vnc.enabled", enabled.toStr⟩,
     ⟨"RemoteDisplay.vnc.port", port.toStr⟩,
     ⟨"RemoteDisplay.vnc.password", password.toStr⟩],
   .gauge "Configuring VNC Settings"]

/-- `VncWidget.enable_vnc`: no-op with a notice when the enabled flag already
reads `"true"` case-insensitively; otherwise take the configured port or
search for one (10 attempts), abort with a notice when none is found, then
reconfigure with `enabled=True` and the configured or a random password. -/
def enable_vnc (ec : List OptionValue) (rand : Nat → Nat) (portOpen : Nat → Bool)
    (pwChoice : Nat → Nat) : List VncEvent :=
  let enabled := dictGet ec "RemoteDisplay.vnc.enabled"
  let port := dictGet ec "RemoteDisplay.vnc.port"
  let password := dictGet ec "RemoteDisplay.vnc.password"
  if pyLower enabled.toStr == "true" then
    [.infobox "Enabling VNC Console ...",
     .msgbox "VNC console is already enabled"]
  else
    let port' : PyVal :=
      if port.truthy then port
      else
        match getAvailablePort rand portOpen 10 with
        | some p => .vint p
        | none => .vnone
    if ¬ port'.truthy then
      [.infobox "Enabling VNC Console ...",
       .msgbox "No available ports for VNC connection, try again later."]
    else
      let password' : PyVal :=
        if password.truthy then password else .vstr (getRandomPassword pwChoice 8)
      .infobox "Enabling VNC Console ..." ::
        configureVncOptions (.vbool true) port' password'

/-- `VncWidget.disable_vnc`: submit a `Reconfigure` whose `extraConfig` delta
holds only `RemoteDisplay.vnc.enabled = "false"`, then display the gauge. -/
def disable_vnc : List VncEvent :=
  [.reconfigure [⟨"RemoteDisplay.vnc.enabled", "false"⟩],
   .gauge "Disabling VNC Console"]

/-- The `extraConfig` deltas of the `Reconfigure` calls in a VNC trace. -/
def reconfigSpecs (tr : List VncEvent) : List (List OptionValue) :=
  tr.filterMap (fun e => match e with | .reconfigure spec => some spec | _ => none)

/-- `VncWidget.settings`, form display: the three form elements prefilled
from the extra config with defaults `"false"`, `""`, `""`. -/
def settingsForm (ec : List OptionValue) : VncEvent :=
  .formShown
    [("Enabled", dictGetD ec "RemoteDisplay.vnc.enabled" "false"),
     ("Port", dictGetD ec "RemoteDisplay.vnc.port" ""),
     ("Password", dictGetD ec "RemoteDisplay.vnc.password" "")]

/-- `VncWidget.settings`, continued: `fEnabled`/`fPort`/`fPassword` are the
field values the form returns and `code` its termination code.  The
`all(fields.values())` check runs first: any empty field aborts with an error
box regardless of `code`; a `Reconfigure` is submitted only on `OK`. -/
def settings (ec : List OptionValue) (code : DialogCode)
    (fEnabled fPort fPassword : String) : List VncEvent :=
  if ¬ (fEnabled ≠ "" ∧ fPort ≠ "" ∧ fPassword ≠ "") then
    [settingsForm ec, .msgbox "Invalid configuration settings"]
  else if code == .ok then
    settingsForm ec :: configureVncOptions (.vstr fEnabled) (.vstr fPort) (.vstr fPassword)
  else
    [settingsForm ec]

/-- Power state of the virtual machine. -/
inductive PowerState where
  | poweredOn : PowerState
  | poweredOff : PowerState
  | suspended : PowerState
deriving DecidableEq, Repr

/-- `VncWidget.launch_console`: refuse unless the VM is powered on, the
enabled flag reads `"true"` case-insensitively, and the configured port is
reachable on the VM host (`int(port)` on an unparsable value raises, modelled
as `.pyError`).  Then create the temp password file (`mkstemp`), generate its
contents with `vncpasswd` and write them (the whole block guarded by one
`try/except OSError`, with oracles `mkstempOk` for `mkstemp` and `vncpasswdOk`
for the spawn/write), spawn `vncviewer` (its own `try/except OSError`, oracle
`viewerOk`), sleep the grace period, and unlink the password file. -/
def launch_console (power : PowerState) (ec : List OptionValue) (hostIp : String)
    (portOpen : Nat → Bool) (mkstempOk vncpasswdOk viewerOk : Bool) : List VncEvent :=
  if power ≠ .poweredOn then
    [.msgbox "You need to power on the Virtual Machine first"]
  else
    let enabled := dictGet ec "RemoteDisplay.vnc.enabled"
    let port := dictGet ec "RemoteDisplay.vnc.port"
    if ¬ (pyLower enabled.toStr == "true") then
      [.msgbox "VNC console is disabled, enable the console first"]
    else
      match port.toInt? with
      | none => [.pyError "int(port) raised"]
      | some p =>
        if ¬ portOpen p then
          [.msgbox "Host is not reachable on the configured port"]
        else
          if ¬ mkstempOk then
            [.msgbox "Cannot create a vncpasswd(1) file"]
          else if ¬ vncpasswdOk then
            [.mkstemp, .msgbox "Cannot create a vncpasswd(1) file"]
          else
            [.mkstemp, .spawnVncpasswd, .writePasswdFile,
             .infobox "Launching console ..."] ++
            (if viewerOk then [.spawnViewer hostIp port.toStr]
             else [.msgbox "Cannot start vncviewer(1)"]) ++
            [.sleepGrace, .unlinkPasswdFile]

/-- Whether a VNC event spawns the external console viewer. -/
def VncEvent.isSpawnViewer : VncEvent → Bool
  | .spawnViewer _ _ => true
  | _ => false

/-! ## Cluster host widget (`src/pvc/widget/cluster.py`) -/

/-- `vim.HostSystemConnectionState`. -/
inductive ConnState where
  | connected : ConnState
  | disconnected : ConnState
  | notResponding : ConnState
deriving DecidableEq, Repr

/-- The string rendering of a connection state, as the checklist shows it. -/
def ConnState.toStr : ConnState → String
  | .connected => "connected"
  | .disconnected => "disconnected"
  | .notResponding => "notResponding"

/-- A `vim.HostSystem` of the cluster, projected to the fields
`ClusterHostWidget` reads: `name` and `runtime.connectionState`. -/
structure Host where
  name : String
  connectionState : ConnState
deriving DecidableEq, Repr

/-- One entry of a checklist: tag and description. -/
structure CheckListItem where
  tag : String
  description : String
deriving DecidableEq, Repr

/-- Observable effect of a `ClusterHostWidget` method, in program order. -/
inductive ClusterEvent where
  | infobox (text : String) : ClusterEvent
  | msgbox (text : String) : ClusterEvent
  | checklistShown (items : List CheckListItem) : ClusterEvent
  | yesno (title : String) : ClusterEvent
  | disconnectCall (host : String) : ClusterEvent
  | reconnectCall (host : String) : ClusterEvent
  | gauge (host : String) : ClusterEvent
deriving DecidableEq, Repr

/-- The checklist items `disconnect_host` builds: one per host of the cluster
whose connection state is `connected`, tagged by name. -/
def disconnectItems (hosts : List Host) : List CheckListItem :=
  (hosts.filter (fun h => h.connectionState == .connected)).map
    (fun h => ⟨h.name, h.connectionState.toStr⟩)

/-- The checklist items `reconnect_host` builds: one per host of the cluster
whose connection state is `disconnected`, tagged by name. -/
def reconnectItems (hosts : List Host) : List CheckListItem :=
  (hosts.filter (fun h => h.connectionState == .disconnected)).map
    (fun h => ⟨h.name, h.connectionState.toStr⟩)

/-- `[h for sh in selected_hosts for h in self.obj.host if sh == h.name]`. -/
def hostObjects (hosts : List Host) (selected : List String) : List Host :=
  selected.flatMap (fun sh => hosts.filter (fun h => sh == h.name))

/-- `ClusterHostWidget.disconnect_host`: build the checklist of connected
hosts and display it; `selected` is the set of tags the user checked, `code`
the answer to the confirmation prompt.  An empty selection returns before the
prompt; `ESC`/`CANCEL` on the prompt returns before any call; otherwise one
`Disconnect` task plus gauge per matching host object, sequentially. -/
def disconnect_host (hosts : List Host) (code : DialogCode)
    (selected : List String) : List ClusterEvent :=
  let pre : List ClusterEvent :=
    [.infobox "Retrieving information ...", .checklistShown (disconnectItems hosts)]
  if selected.isEmpty then pre
  else
    let pre2 := pre ++ [.yesno "Confirm disconnect"]
    if code == .esc ∨ code == .cancel then pre2
    else
      pre2 ++ (hostObjects hosts selected).flatMap
        (fun h => [.disconnectCall h.name, .gauge h.name])

/-- `ClusterHostWidget.reconnect_host`: build the checklist of disconnected
hosts; when there are none, report it and return.  Otherwise display the
checklist; an empty selection returns; otherwise one `Reconnect` task plus
gauge per matching host object, sequentially (no confirmation prompt). -/
def reconnect_host (hosts : List Host) (selected : List String) : List ClusterEvent :=
  let pre : List ClusterEvent := [.infobox "Retrieving information ..."]
  if (reconnectItems hosts).isEmpty then
    pre ++ [.msgbox "There are no disconnected hosts in the cluster"]
  else
    let pre2 := pre ++ [.checklistShown (reconnectItems hosts)]
    if selected.isEmpty then pre2
    else
      pre2 ++ (hostObjects hosts selected).flatMap
        (fun h => [.reconnectCall h.name, .gauge h.name])

/-- Whether a cluster event is a remote `Disconnect` submission. -/
def ClusterEvent.isDisconnectCall : ClusterEvent → Bool
  | .disconnectCall _ => true
  | _ => false

/-- Whether a cluster event is a remote `Reconnect` submission. -/
def ClusterEvent.isReconnectCall : ClusterEvent → Bool
  | .reconnectCall _ => true
  | _ => false

/-- Whether a cluster event displays a checklist. -/
def ClusterEvent.isChecklistShown : ClusterEvent → Bool
  | .checklistShown _ => true
  | _ => false

/-- Whether a cluster event is the yes/no confirmation prompt. -/
def ClusterEvent.isYesno : ClusterEvent → Bool
  | .yesno _ => true
  | _ => false

/-! ## Theorems -/

/-- C9: every `Reconfigure` submitted by `VncWidget.disable_vnc` carries a
delta whose `extraConfig` is exactly the single key `RemoteDisplay.vnc.enabled`
set to `"false"`; the port and password keys are not part of the delta. -/
theorem disable_vnc_delta_clears_enabled_only :
    reconfigSpecs disable_vnc = [[⟨"RemoteDisplay.vnc.enabled", "false"⟩]]
    ∧ (reconfigSpecs disable_vnc).all
        (fun spec => spec.all (fun o =>
          !(o.key == "RemoteDisplay.vnc.port")
            && !(o.key == "RemoteDisplay.vnc.password"))) = true := by
  constructor
  · rfl
  · decide

/-- C6: when the extra-config value of `RemoteDisplay.vnc.enabled` reads
`"true"` case-insensitively, `enable_vnc` shows the already-enabled notice and
submits no `Reconfigure`, leaving the configuration untouched (idempotence in
the already-enabled state). -/
theorem enable_vnc_idempotent_when_already_enabled
    (ec : List OptionValue) (rand : Nat → Nat) (portOpen : Nat → Bool)
    (pwChoice : Nat → Nat)
    (h : pyLower (dictGet ec "RemoteDisplay.vnc.enabled").toStr = "true") :
    enable_vnc ec rand portOpen pwChoice =
      [.infobox "Enabling VNC Console ...",
       .msgbox "VNC console is already enabled"]
    ∧ reconfigSpecs (enable_vnc ec rand portOpen pwChoice) = [] := by
  simp [enable_vnc, h, reconfigSpecs]

/-- Witness for C6 with the mixed-case stored value `"True"`. -/
theorem enable_vnc_idempotent_witness :
    enable_vnc [⟨"RemoteDisplay.vnc.enabled", "True"⟩]
        (fun _ => 1) (fun _ => true) (fun _ => 0) =
      [.infobox "Enabling VNC Console ...",
       .msgbox "VNC console is already enabled"]
    ∧ reconfigSpecs
        (enable_vnc [⟨"RemoteDisplay.vnc.enabled", "True"⟩]
          (fun _ => 1) (fun _ => true) (fun _ => 0)) = [] :=
  enable_vnc_idempotent_when_already_enabled _ _ _ _ (by decide)

/-- C7: submitting the VNC settings form with any of the Enabled/Port/Password
fields empty aborts with an error box and no `Reconfigure`; conversely a
`Reconfigure` is submitted only when the form terminated with `OK` and all
three fields are non-empty. -/
theorem settings_rejects_empty_fields
    (ec : List OptionValue) (code : DialogCode) (fEnabled fPort fPassword : String) :
    ((fEnabled = "" ∨ fPort = "" ∨ fPassword = "") →
      settings ec code fEnabled fPort fPassword =
        [settingsForm ec, .msgbox "Invalid configuration settings"]
      ∧ reconfigSpecs (settings ec code fEnabled fPort fPassword) = [])
    ∧ (reconfigSpecs (settings ec code fEnabled fPort fPassword) ≠ [] →
      code = .ok ∧ fEnabled ≠ "" ∧ fPort ≠ "" ∧ fPassword ≠ "") := by
  constructor
  · intro h
    have hcond : ¬ (fEnabled ≠ "" ∧ fPort ≠ "" ∧ fPassword ≠ "") := by tauto
    simp only [settings, if_pos hcond]
    simp [reconfigSpecs, settingsForm]
  · intro h
    by_cases hcond : fEnabled ≠ "" ∧ fPort ≠ "" ∧ fPassword ≠ ""
    · by_cases hc : code = DialogCode.ok
      · exact ⟨hc, hcond.1, hcond.2.1, hcond.2.2⟩
      · exfalso
        apply h
        have hb : (code == DialogCode.ok) = false := by
          simpa using hc
        simp [settings, hcond, hb, reconfigSpecs, settingsForm]
    · exfalso
      apply h
      simp only [settings, if_pos hcond]
      simp [reconfigSpecs, settingsForm]

/-- Witness for C7: an empty Enabled field aborts even when the code is OK. -/
theorem settings_rejects_empty_fields_witness :
    settings [] .ok "" "5901" "secret" =
      [settingsForm [], .msgbox "Invalid configuration settings"]
    ∧ reconfigSpecs (settings [] .ok "" "5901" "secret") = [] :=
  (settings_rejects_empty_fields [] .ok "" "5901" "secret").1 (Or.inl rfl)

/-- The probe loop returns exactly the first mapped port failing the
reachability probe. -/
lemma getAvailablePortAux_eq_find? (rand : Nat → Nat) (portOpen : Nat → Bool)
    (l : List Nat) :
    getAvailablePortAux rand portOpen l
      = (l.map (fun i => 5900 + rand i)).find? (fun p => !portOpen p) := by
  induction l with
  | nil => rfl
  | cons i rest ih =>
    by_cases hp : portOpen (5900 + rand i) = true
    · simp [getAvailablePortAux, hp, List.find?, ih]
    · simp [getAvailablePortAux, hp, List.find?]

/-- C1: with each random draw in `[1, 98]` (`random.randrange(1, 99)`), every
probed port lies in `5901..5999`; `_get_available_port` returns the first
probed port the host is not accepting connections on; when every probed port
is accepting, it returns `none` after exactly 10 probes, in which case
`enable_vnc` (with no configured port and the console not already enabled)
shows the no-ports notice and submits no `Reconfigure`. -/
theorem get_available_port_spec (rand : Nat → Nat) (portOpen : Nat → Bool)
    (hrand : ∀ i, 1 ≤ rand i ∧ rand i < 99) :
    (∀ p ∈ probedPorts rand 10, 5901 ≤ p ∧ p ≤ 5999)
    ∧ getAvailablePort rand portOpen 10
        = (probedPorts rand 10).find? (fun p => !portOpen p)
    ∧ ((∀ p ∈ probedPorts rand 10, portOpen p = true) →
        getAvailablePort rand portOpen 10 = none
        ∧ (probedPorts rand 10).length = 10
        ∧ ∀ (ec : List OptionValue) (pwChoice : Nat → Nat),
            pyLower (dictGet ec "RemoteDisplay.vnc.enabled").toStr ≠ "true" →
            (dictGet ec "RemoteDisplay.vnc.port").truthy = false →
            enable_vnc ec rand portOpen pwChoice =
              [.infobox "Enabling VNC Console ...",
               .msgbox "No available ports for VNC connection, try again later."]
            ∧ reconfigSpecs (enable_vnc ec rand portOpen pwChoice) = []) := by
  have hfind : getAvailablePort rand portOpen 10
      = (probedPorts rand 10).find? (fun p => !portOpen p) :=
    getAvailablePortAux_eq_find? rand portOpen (List.range 10)
  refine ⟨?_, hfind, ?_⟩
  · intro p hp
    simp only [probedPorts, List.mem_map, List.mem_range] at hp
    obtain ⟨i, _, rfl⟩ := hp
    have := hrand i
    omega
  · intro hall
    have hnone : getAvailablePort rand portOpen 10 = none := by
      rw [hfind, List.find?_eq_none]
      intro p hp
      simp [hall p hp]
    refine ⟨hnone, by simp [probedPorts], ?_⟩
    intro ec pwChoice henabled hport
    have hb : (pyLower (dictGet ec "RemoteDisplay.vnc.enabled").toStr == "true") = false := by
      simpa using henabled
    simp [enable_vnc, hb, hport, hnone, reconfigSpecs,
      show PyVal.vnone.truthy = false from rfl]

/-- Witness for C1: a host on which every port is occupied. -/
theorem get_available_port_spec_witness :
    (∀ p ∈ probedPorts (fun _ => 1) 10, 5901 ≤ p ∧ p ≤ 5999)
    ∧ getAvailablePort (fun _ => 1) (fun _ => true) 10
        = (probedPorts (fun _ => 1) 10).find? (fun p => !(fun _ => true) p)
    ∧ ((∀ p ∈ probedPorts (fun _ => 1) 10, (fun _ => true) p = true) →
        getAvailablePort (fun _ => 1) (fun _ => true) 10 = none
        ∧ (probedPorts (fun _ => 1) 10).length = 10
        ∧ ∀ (ec : List OptionValue) (pwChoice : Nat → Nat),
            pyLower (dictGet ec "RemoteDisplay.vnc.enabled").toStr ≠ "true" →
            (dictGet ec "RemoteDisplay.vnc.port").truthy = false →
            enable_vnc ec (fun _ => 1) (fun _ => true) pwChoice =
              [.infobox "Enabling VNC Console ...",
               .msgbox "No available ports for VNC connection, try again later."]
            ∧ reconfigSpecs (enable_vnc ec (fun _ => 1) (fun _ => true) pwChoice) = []) :=
  get_available_port_spec (fun _ => 1) (fun _ => true)
    (fun _ => ⟨Nat.le_refl 1, by show (1 : Nat) < 99; omega⟩)

/-- C3: when the VM is not powered on, or the enabled flag does not read
`"true"` case-insensitively, or the configured port fails the reachability
probe on the VM host, `launch_console` never spawns the console-viewer
process. -/
theorem launch_console_guards_prevent_viewer
    (power : PowerState) (ec : List OptionValue) (hostIp : String)
    (portOpen : Nat → Bool) (mkstempOk vncpasswdOk viewerOk : Bool)
    (h : power ≠ .poweredOn
        ∨ pyLower (dictGet ec "RemoteDisplay.vnc.enabled").toStr ≠ "true"
        ∨ ∀ p, (dictGet ec "RemoteDisplay.vnc.port").toInt? = some p →
            portOpen p = false) :
    (launch_console power ec hostIp portOpen mkstempOk vncpasswdOk viewerOk).all
      (fun e => !e.isSpawnViewer) = true := by
  rcases h with h | h | h
  · simp [launch_console, h, VncEvent.isSpawnViewer]
  · by_cases hp : power = PowerState.poweredOn
    · have hb : (pyLower (dictGet ec "RemoteDisplay.vnc.enabled").toStr == "true")
          = false := by simpa using h
      simp [launch_console, hp, hb, VncEvent.isSpawnViewer]
    · simp [launch_console, hp, VncEvent.isSpawnViewer]
  · by_cases hp : power = PowerState.poweredOn
    · by_cases he : pyLower (dictGet ec "RemoteDisplay.vnc.enabled").toStr = "true"
      · rcases hport : (dictGet ec "RemoteDisplay.vnc.port").toInt? with _ | p
        · simp [launch_console, hp, he, hport, VncEvent.isSpawnViewer]
        · have := h p hport
          simp [launch_console, hp, he, hport, this, VncEvent.isSpawnViewer]
      · have hb : (pyLower (dictGet ec "RemoteDisplay.vnc.enabled").toStr == "true")
            = false := by simpa using he
        simp [launch_console, hp, hb, VncEvent.isSpawnViewer]
    · simp [launch_console, hp, VncEvent.isSpawnViewer]

/-- Witness for C3: a powered-off VM. -/
theorem launch_console_guards_witness :
    (launch_console .poweredOff
        [⟨"RemoteDisplay.vnc.enabled", "true"⟩, ⟨"RemoteDisplay.vnc.port", "5901"⟩]
        "10.0.0.1" (fun _ => true) true true true).all
      (fun e => !e.isSpawnViewer) = true :=
  launch_console_guards_prevent_viewer .poweredOff
    [⟨"RemoteDisplay.vnc.enabled", "true"⟩, ⟨"RemoteDisplay.vnc.port", "5901"⟩]
    "10.0.0.1" (fun _ => true) true true true (Or.inl (by decide))

/-- Counterexample to C2 as stated: with the guards passed, `mkstemp`
succeeding and the `vncpasswd` spawn/write block raising `OSError`, the run
completes (error box shown) but the created temporary password file is never
unlinked, so it still exists on disk. -/
theorem launch_console_passwd_file_leak :
    VncEvent.mkstemp ∈ launch_console .poweredOn
        [⟨"RemoteDisplay.vnc.enabled", "true"⟩, ⟨"RemoteDisplay.vnc.port", "5901"⟩,
         ⟨"RemoteDisplay.vnc.password", "secret"⟩]
        "10.0.0.1" (fun _ => true) true false true
    ∧ VncEvent.unlinkPasswdFile ∉ launch_console .poweredOn
        [⟨"RemoteDisplay.vnc.enabled", "true"⟩, ⟨"RemoteDisplay.vnc.port", "5901"⟩,
         ⟨"RemoteDisplay.vnc.password", "secret"⟩]
        "10.0.0.1" (fun _ => true) true false true := by
  constructor
  · decide
  · decide

/-- C2 amended: in every run of `launch_console` in which the password-file
generation and write block completes without `OSError`, the temporary
password file, once created, is unlinked by the end of the run — whether the
viewer process spawned successfully or its spawn raised an `OSError`. -/
theorem launch_console_unlinks_passwd_file
    (power : PowerState) (ec : List OptionValue) (hostIp : String)
    (portOpen : Nat → Bool) (mkstempOk viewerOk : Bool)
    (hcreated : VncEvent.mkstemp ∈
      launch_console power ec hostIp portOpen mkstempOk true viewerOk) :
    VncEvent.unlinkPasswdFile ∈
      launch_console power ec hostIp portOpen mkstempOk true viewerOk := by
  by_cases hp : power = PowerState.poweredOn
  · by_cases he : (pyLower (dictGet ec "RemoteDisplay.vnc.enabled").toStr == "true") = true
    · rcases hport : (dictGet ec "RemoteDisplay.vnc.port").toInt? with _ | p
      · simp [launch_console, hp, he, hport] at hcreated
      · by_cases hopen : portOpen p = true
        · by_cases hmk : mkstempOk = true
          · rcases hv : viewerOk with _ | _ <;>
              simp [launch_console, hp, he, hport, hopen, hmk, hv]
          · simp [launch_console, hp, he, hport, hopen, hmk] at hcreated
        · simp [launch_console, hp, he, hport, hopen] at hcreated
    · simp [launch_console, hp, he] at hcreated
  · simp [launch_console, hp] at hcreated

/-- Witness for the amended C2: viewer spawn fails, file still unlinked. -/
theorem launch_console_unlinks_witness :
    VncEvent.unlinkPasswdFile ∈ launch_console .poweredOn
        [⟨"RemoteDisplay.vnc.enabled", "true"⟩, ⟨"RemoteDisplay.vnc.port", "5901"⟩,
         ⟨"RemoteDisplay.vnc.password", "secret"⟩]
        "10.0.0.1" (fun _ => true) true true false :=
  launch_console_unlinks_passwd_file .poweredOn
    [⟨"RemoteDisplay.vnc.enabled", "true"⟩, ⟨"RemoteDisplay.vnc.port", "5901"⟩,
     ⟨"RemoteDisplay.vnc.password", "secret"⟩]
    "10.0.0.1" (fun _ => true) true false (by decide)

/-- When host names are pairwise distinct, the filter re-finding a selected
tag among the cluster hosts yields exactly the one host carrying it. -/
lemma filter_by_name_singleton (hosts : List Host) (s : String) (h : Host)
    (hnd : (hosts.map Host.name).Nodup) (hmem : h ∈ hosts) (hname : h.name = s) :
    hosts.filter (fun h' => s == h'.name) = [h] := by
  induction hosts with
  | nil => cases hmem
  | cons a t ih =>
    simp only [List.map_cons, List.nodup_cons] at hnd
    rcases List.mem_cons.mp hmem with rfl | hmem'
    · have hcond : (s == h.name) = true := by simp [hname]
      have hnil : t.filter (fun h' => s == h'.name) = [] := by
        rw [List.filter_eq_nil_iff]
        intro b hb
        have hbmem : b.name ∈ t.map Host.name := List.mem_map_of_mem Host.name hb
        simp only [beq_iff_eq, ← hname]
        intro heq
        exact hnd.1 (heq ▸ hbmem)
      simp [List.filter_cons, hcond, hnil]
    · have hsmem : s ∈ t.map Host.name := hname ▸ List.mem_map_of_mem Host.name hmem'
      have hcond : (s == a.name) = false := by
        refine beq_eq_false_iff_ne.mpr ?_
        intro heq
        exact hnd.1 (heq ▸ hsmem)
      simp only [List.filter_cons, hcond, Bool.false_eq_true, if_false]
      exact ih hnd.2 hmem'

/-- Looking up each selected tag and emitting a call/gauge pair per match
produces exactly one pair per selection, in selection order. -/
lemma hostObjects_flatMap_eq (hosts : List Host) (selected : List String)
    (f g : String → ClusterEvent)
    (hnd : (hosts.map Host.name).Nodup)
    (hsel : ∀ s ∈ selected, ∃ h ∈ hosts, h.name = s) :
    (hostObjects hosts selected).flatMap (fun h => [f h.name, g h.name])
      = selected.flatMap (fun s => [f s, g s]) := by
  induction selected with
  | nil => rfl
  | cons s rest ih =>
    obtain ⟨h, hh, hhs⟩ := hsel s (List.mem_cons_self s rest)
    have hfil := filter_by_name_singleton hosts s h hnd hh hhs
    have ihr := ih (fun x hx => hsel x (List.mem_cons_of_mem s hx))
    simp only [hostObjects, List.flatMap_cons] at ihr ⊢
    rw [List.flatMap_append, hfil, ihr]
    simp [hhs]

/-- In a call/gauge pair trace, the call events number one per selection. -/
lemma flatMap_pair_count (selected : List String) (mk other : String → ClusterEvent)
    (q : ClusterEvent → Bool)
    (hmk : ∀ s, q (mk s) = true) (hother : ∀ s, q (other s) = false) :
    ((selected.flatMap (fun s => [mk s, other s])).filter q).length
      = selected.length := by
  induction selected with
  | nil => rfl
  | cons s rest ih =>
    simp [List.flatMap_cons, List.filter_append, List.filter_cons,
      hmk s, hother s, ih]

/-- C4: with pairwise-distinct host names, a confirmed batch disconnect and a
confirmed batch reconnect each issue exactly one remote call per confirmed
selection, in selection order, each call followed by its own gauge before the
next call is submitted; the call count equals the selection count. -/
theorem batch_operations_sequential
    (hosts : List Host) (code : DialogCode) (selDis selRec : List String)
    (hnd : (hosts.map Host.name).Nodup)
    (hselDis : ∀ s ∈ selDis, s ∈ (disconnectItems hosts).map CheckListItem.tag)
    (hselRec : ∀ s ∈ selRec, s ∈ (reconnectItems hosts).map CheckListItem.tag)
    (hcode : code ≠ .esc ∧ code ≠ .cancel)
    (hDne : selDis ≠ []) (hRne : selRec ≠ []) :
    (disconnect_host hosts code selDis =
      [.infobox "Retrieving information ...",
       .checklistShown (disconnectItems hosts), .yesno "Confirm disconnect"]
      ++ selDis.flatMap (fun s => [.disconnectCall s, .gauge s])
    ∧ ((disconnect_host hosts code selDis).filter
        ClusterEvent.isDisconnectCall).length = selDis.length)
    ∧ (reconnect_host hosts selRec =
      [.infobox "Retrieving information ...",
       .checklistShown (reconnectItems hosts)]
      ++ selRec.flatMap (fun s => [.reconnectCall s, .gauge s])
    ∧ ((reconnect_host hosts selRec).filter
        ClusterEvent.isReconnectCall).length = selRec.length) := by
  have hexDis : ∀ s ∈ selDis, ∃ h ∈ hosts, h.name = s := by
    intro s hs
    obtain ⟨it, hit, rfl⟩ := List.mem_map.mp (hselDis s hs)
    simp only [disconnectItems, List.map_map, List.mem_map] at hit
    obtain ⟨h, hh, rfl⟩ := hit
    exact ⟨h, (List.mem_filter.mp hh).1, rfl⟩
  have hexRec : ∀ s ∈ selRec, ∃ h ∈ hosts, h.name = s := by
    intro s hs
    obtain ⟨it, hit, rfl⟩ := List.mem_map.mp (hselRec s hs)
    simp only [reconnectItems, List.map_map, List.mem_map] at hit
    obtain ⟨h, hh, rfl⟩ := hit
    exact ⟨h, (List.mem_filter.mp hh).1, rfl⟩
  have hcode' : (code == DialogCode.esc ∨ code == DialogCode.cancel) = False := by
    simp [hcode.1, hcode.2]
  have hRitems : (reconnectItems hosts).isEmpty = false := by
    obtain ⟨s, hs⟩ := List.exists_mem_of_ne_nil selRec hRne
    obtain ⟨it, hit, _⟩ := List.mem_map.mp (hselRec s hs)
    have hne : reconnectItems hosts ≠ [] := List.ne_nil_of_mem hit
    cases hi : (reconnectItems hosts).isEmpty
    · rfl
    · exact absurd (List.isEmpty_iff.mp hi) hne
  constructor
  · have htrace : disconnect_host hosts code selDis =
        [.infobox "Retrieving information ...",
         .checklistShown (disconnectItems hosts), .yesno "Confirm disconnect"]
        ++ selDis.flatMap (fun s => [.disconnectCall s, .gauge s]) := by
      rw [disconnect_host]
      simp only [List.isEmpty_iff, hDne, if_false, hcode', if_false]
      rw [hostObjects_flatMap_eq hosts selDis _ _ hnd hexDis]
      simp
    refine ⟨htrace, ?_⟩
    rw [htrace, List.filter_append, List.length_append,
      flatMap_pair_count selDis ClusterEvent.disconnectCall ClusterEvent.gauge
        ClusterEvent.isDisconnectCall (fun s => rfl) (fun s => rfl)]
    simp [ClusterEvent.isDisconnectCall]
  · have htrace : reconnect_host hosts selRec =
        [.infobox "Retrieving information ...",
         .checklistShown (reconnectItems hosts)]
        ++ selRec.flatMap (fun s => [.reconnectCall s, .gauge s]) := by
      rw [reconnect_host]
      simp only [hRitems, Bool.false_eq_true, if_false, List.isEmpty_iff, hRne]
      rw [hostObjects_flatMap_eq hosts selRec _ _ hnd hexRec]
      simp
    refine ⟨htrace, ?_⟩
    rw [htrace, List.filter_append, List.length_append,
      flatMap_pair_count selRec ClusterEvent.reconnectCall ClusterEvent.gauge
        ClusterEvent.isReconnectCall (fun s => rfl) (fun s => rfl)]
    simp [ClusterEvent.isReconnectCall]

/-- Witness for C4: one connected and one disconnected host, one selection
each. -/
theorem batch_operations_sequential_witness :
    (disconnect_host [⟨"h1", .connected⟩, ⟨"h2", .disconnected⟩] .ok ["h1"] =
      [.infobox "Retrieving information ...",
       .checklistShown (disconnectItems [⟨"h1", .connected⟩, ⟨"h2", .disconnected⟩]),
       .yesno "Confirm disconnect"]
      ++ (["h1"].flatMap (fun s => [.disconnectCall s, .gauge s]))
    ∧ ((disconnect_host [⟨"h1", .connected⟩, ⟨"h2", .disconnected⟩] .ok ["h1"]).filter
        ClusterEvent.isDisconnectCall).length = (["h1"] : List String).length)
    ∧ (reconnect_host [⟨"h1", .connected⟩, ⟨"h2", .disconnected⟩] ["h2"] =
      [.infobox "Retrieving information ...",
       .checklistShown (reconnectItems [⟨"h1", .connected⟩, ⟨"h2", .disconnected⟩])]
      ++ (["h2"].flatMap (fun s => [.reconnectCall s, .gauge s]))
    ∧ ((reconnect_host [⟨"h1", .connected⟩, ⟨"h2", .disconnected⟩] ["h2"]).filter
        ClusterEvent.isReconnectCall).length = (["h2"] : List String).length) :=
  batch_operations_sequential [⟨"h1", .connected⟩, ⟨"h2", .disconnected⟩] .ok
    ["h1"] ["h2"] (by decide) (by decide) (by decide)
    ⟨by decide, by decide⟩ (by decide) (by decide)

/-- C5: every checklist `disconnect_host` ever displays is exactly the list of
currently connected hosts, and every checklist `reconnect_host` ever displays
is exactly the list of currently disconnected hosts; hence neither offers a
host in any other connection state. -/
theorem checklists_offer_only_eligible_hosts
    (hosts : List Host) (code : DialogCode) (selD selR : List String)
    (its : List CheckListItem) :
    (ClusterEvent.checklistShown its ∈ disconnect_host hosts code selD →
      its = disconnectItems hosts
      ∧ ∀ it ∈ its, ∃ h, h ∈ hosts ∧ h.name = it.tag
          ∧ h.connectionState = ConnState.connected)
    ∧ (ClusterEvent.checklistShown its ∈ reconnect_host hosts selR →
      its = reconnectItems hosts
      ∧ ∀ it ∈ its, ∃ h, h ∈ hosts ∧ h.name = it.tag
          ∧ h.connectionState = ConnState.disconnected) := by
  have hDitems : ∀ it ∈ disconnectItems hosts, ∃ h, h ∈ hosts ∧ h.name = it.tag
      ∧ h.connectionState = ConnState.connected := by
    intro it hit
    simp only [disconnectItems, List.mem_map, List.mem_filter, beq_iff_eq] at hit
    obtain ⟨h, ⟨hh, hstate⟩, rfl⟩ := hit
    exact ⟨h, hh, rfl, hstate⟩
  have hRitems : ∀ it ∈ reconnectItems hosts, ∃ h, h ∈ hosts ∧ h.name = it.tag
      ∧ h.connectionState = ConnState.disconnected := by
    intro it hit
    simp only [reconnectItems, List.mem_map, List.mem_filter, beq_iff_eq] at hit
    obtain ⟨h, ⟨hh, hstate⟩, rfl⟩ := hit
    exact ⟨h, hh, rfl, hstate⟩
  constructor
  · intro hmem
    have hits : its = disconnectItems hosts := by
      simp only [disconnect_host] at hmem
      split at hmem
      · simp at hmem
        exact hmem
      · split at hmem
        · simp at hmem
          exact hmem
        · simp at hmem
          exact hmem
    exact ⟨hits, hits ▸ hDitems⟩
  · intro hmem
    have hits : its = reconnectItems hosts := by
      simp only [reconnect_host] at hmem
      split at hmem
      · simp at hmem
      · split at hmem
        · simp at hmem
          exact hmem
        · simp at hmem
          exact hmem
    exact ⟨hits, hits ▸ hRitems⟩

/-- Witness for C5 on a two-host cluster. -/
theorem checklists_eligible_witness :
    ([⟨"h1", "connected"⟩] : List CheckListItem) =
      disconnectItems [⟨"h1", .connected⟩, ⟨"h2", .disconnected⟩]
    ∧ ∀ it ∈ ([⟨"h1", "connected"⟩] : List CheckListItem),
        ∃ h, h ∈ ([⟨"h1", .connected⟩, ⟨"h2", .disconnected⟩] : List Host)
          ∧ h.name = it.tag ∧ h.connectionState = ConnState.connected :=
  (checklists_offer_only_eligible_hosts
      [⟨"h1", .connected⟩, ⟨"h2", .disconnected⟩] .ok [] []
      [⟨"h1", "connected"⟩]).1 (by decide)

/-- C8: when no host of the cluster is in the `disconnected` state,
`reconnect_host` only reports that there are no disconnected hosts: it shows
no checklist and submits no `Reconnect`. -/
theorem reconnect_reports_no_disconnected_hosts
    (hosts : List Host) (selected : List String)
    (h : ∀ x ∈ hosts, x.connectionState ≠ ConnState.disconnected) :
    reconnect_host hosts selected =
      [.infobox "Retrieving information ...",
       .msgbox "There are no disconnected hosts in the cluster"]
    ∧ (reconnect_host hosts selected).all
        (fun e => !e.isChecklistShown && !e.isReconnectCall) = true := by
  have hfil : hosts.filter (fun x => x.connectionState == ConnState.disconnected) = [] := by
    rw [List.filter_eq_nil_iff]
    intro x hx
    simpa using h x hx
  have hitems : reconnectItems hosts = [] := by
    simp [reconnectItems, hfil]
  have htrace : reconnect_host hosts selected =
      [.infobox "Retrieving information ...",
       .msgbox "There are no disconnected hosts in the cluster"] := by
    rw [reconnect_host]
    simp [hitems]
  refine ⟨htrace, ?_⟩
  rw [htrace]
  rfl

/-- Witness for C8: a cluster with a connected and a not-responding host. -/
theorem reconnect_reports_witness :
    reconnect_host [⟨"h1", .connected⟩, ⟨"h3", .notResponding⟩] ["h1"] =
      [.infobox "Retrieving information ...",
       .msgbox "There are no disconnected hosts in the cluster"]
    ∧ (reconnect_host [⟨"h1", .connected⟩, ⟨"h3", .notResponding⟩] ["h1"]).all
        (fun e => !e.isChecklistShown && !e.isReconnectCall) = true :=
  reconnect_reports_no_disconnected_hosts
    [⟨"h1", .connected⟩, ⟨"h3", .notResponding⟩] ["h1"] (by decide)

/-- C10: `disconnect_host` always displays its checklist, even when no host
is connected (the checklist is then empty, unlike `reconnect_host`, which
reports the empty case instead); and on an empty selection it returns without
the confirmation prompt and without any `Disconnect` call. -/
theorem disconnect_empty_paths
    (hosts : List Host) (code : DialogCode) (selected : List String) :
    ClusterEvent.checklistShown (disconnectItems hosts)
      ∈ disconnect_host hosts code selected
    ∧ ((∀ x ∈ hosts, x.connectionState ≠ ConnState.connected) →
        ClusterEvent.checklistShown [] ∈ disconnect_host hosts code selected)
    ∧ (selected = [] →
        disconnect_host hosts code selected =
          [.infobox "Retrieving information ...",
           .checklistShown (disconnectItems hosts)]
        ∧ (disconnect_host hosts code selected).all
            (fun e => !e.isYesno && !e.isDisconnectCall) = true) := by
  have hshown : ClusterEvent.checklistShown (disconnectItems hosts)
      ∈ disconnect_host hosts code selected := by
    simp only [disconnect_host]
    split
    · simp
    · split
      · simp
      · simp
  refine ⟨hshown, ?_, ?_⟩
  · intro h
    have hfil : hosts.filter (fun x => x.connectionState == ConnState.connected) = [] := by
      rw [List.filter_eq_nil_iff]
      intro x hx
      simpa using h x hx
    have hitems : disconnectItems hosts = [] := by
      simp [disconnectItems, hfil]
    exact hitems ▸ hshown
  · intro hsel
    have htrace : disconnect_host hosts code selected =
        [.infobox "Retrieving information ...",
         .checklistShown (disconnectItems hosts)] := by
      rw [disconnect_host, hsel]
      rfl
    refine ⟨htrace, ?_⟩
    rw [htrace]
    rfl

/-- Witness for C10 on a cluster with no connected host. -/
theorem disconnect_empty_paths_witness :
    ClusterEvent.checklistShown (disconnectItems [⟨"h2", ConnState.disconnected⟩])
      ∈ disconnect_host [⟨"h2", ConnState.disconnected⟩] .ok []
    ∧ ClusterEvent.checklistShown [] ∈ disconnect_host [⟨"h2", ConnState.disconnected⟩] .ok []
    ∧ (disconnect_host [⟨"h2", ConnState.disconnected⟩] .ok [] =
        [.infobox "Retrieving information ...",
         .checklistShown (disconnectItems [⟨"h2", ConnState.disconnected⟩])]
      ∧ (disconnect_host [⟨"h2", ConnState.disconnected⟩] .ok []).all
          (fun e => !e.isYesno && !e.isDisconnectCall) = true) := by
  have h := disconnect_empty_paths [⟨"h2", ConnState.disconnected⟩] .ok []
  exact ⟨h.1, h.2.1 (by decide), h.2.2 rfl⟩

end Pvc
